import Mathlib

/-!
Verification of the health-color mapping, byte-rate formatting and theme
cycling core of mystem-sonitor, embedded shallowly from
`src/mystem_sonitor.py`.  Real-valued arithmetic of the source is modelled
over `ℚ`.
-/

/-- RGB triple, each channel a rational in the source's 0..1 scale. -/
abbrev RGB : Type := ℚ × ℚ × ℚ

/-- The three color stops that `get_health_color` reads from a theme
(`theme["good"]`, `theme["warn"]`, `theme["danger"]` in the source). -/
structure Theme where
  good : RGB
  warn : RGB
  danger : RGB
deriving DecidableEq

/-- `get_health_color(percent, theme)` from `mystem_sonitor.py` lines 125-146. -/
def get_health_color (percent : ℚ) (theme : Theme) : RGB :=
  let good := theme.good
  let warn := theme.warn
  let danger := theme.danger
  if percent ≤ 50 then good
  else if percent ≤ 75 then
    let t := (percent - 50) / 25
    (good.1 + t * (warn.1 - good.1),
     good.2.1 + t * (warn.2.1 - good.2.1),
     good.2.2 + t * (warn.2.2 - good.2.2))
  else
    let t := min 1 ((percent - 75) / 25)
    (warn.1 + t * (danger.1 - warn.1),
     warn.2.1 + t * (danger.2.1 - warn.2.1),
     warn.2.2 + t * (danger.2.2 - warn.2.2))

/-- The formula of the `percent <= 75` branch of `get_health_color`
(lines 133-139), as a standalone function of `percent`. -/
def healthMidBranch (percent : ℚ) (theme : Theme) : RGB :=
  let t := (percent - 50) / 25
  (theme.good.1 + t * (theme.warn.1 - theme.good.1),
   theme.good.2.1 + t * (theme.warn.2.1 - theme.good.2.1),
   theme.good.2.2 + t * (theme.warn.2.2 - theme.good.2.2))

/-- The formula of the final (`percent > 75`) branch of `get_health_color`
(lines 140-146), as a standalone function of `percent`. -/
def healthHiBranch (percent : ℚ) (theme : Theme) : RGB :=
  let t := min 1 ((percent - 75) / 25)
  (theme.warn.1 + t * (theme.danger.1 - theme.warn.1),
   theme.warn.2.1 + t * (theme.danger.2.1 - theme.warn.2.1),
   theme.warn.2.2 + t * (theme.danger.2.2 - theme.warn.2.2))

/-- All three channels of an RGB triple lie in `[0, 1]`. -/
def inUnitRGB (c : RGB) : Prop :=
  0 ≤ c.1 ∧ c.1 ≤ 1 ∧ 0 ≤ c.2.1 ∧ c.2.1 ≤ 1 ∧ 0 ≤ c.2.2 ∧ c.2.2 ≤ 1

instance (c : RGB) : Decidable (inUnitRGB c) := by
  unfold inUnitRGB; infer_instance

/-- Round to the nearest integer, ties to even: the rounding Python's
fixed-point float formatting (`f"{v:.0f}"`, `f"{v:.1f}"`) performs. -/
def roundHalfEven (q : ℚ) : ℤ :=
  if q - ⌊q⌋ < 1/2 then ⌊q⌋
  else if 1/2 < q - ⌊q⌋ then ⌊q⌋ + 1
  else if ⌊q⌋ % 2 = 0 then ⌊q⌋ else ⌊q⌋ + 1

/-- Python's `f"{q:.0f}"`: the value rounded half-to-even to an integer,
with a sign taken from the input (so `-0.3` prints as `"-0"`). -/
def fmtFixed0 (q : ℚ) : String :=
  if q < 0 then "-" ++ toString (roundHalfEven q).natAbs
  else toString (roundHalfEven q).natAbs

/-- Python's `f"{q:.1f}"`: the value rounded half-to-even to one decimal
place, printed with exactly one digit after the point. -/
def fmtFixed1 (q : ℚ) : String :=
  if q < 0 then
    "-" ++ toString ((roundHalfEven (10 * q)).natAbs / 10) ++ "." ++
      toString ((roundHalfEven (10 * q)).natAbs % 10)
  else
    toString ((roundHalfEven (10 * q)).natAbs / 10) ++ "." ++
      toString ((roundHalfEven (10 * q)).natAbs % 10)

/-- `IOWidget._fmt_long(v)` from `mystem_sonitor.py` lines 616-620. -/
def IOWidget.fmt_long (v : ℚ) : String :=
  if v < 1024 then fmtFixed0 v ++ " B/s"
  else if v < 1024^2 then fmtFixed1 (v / 1024) ++ " KB/s"
  else if v < 1024^3 then fmtFixed1 (v / 1024^2) ++ " MB/s"
  else fmtFixed1 (v / 1024^3) ++ " GB/s"

/-- The `THEMES` table of `mystem_sonitor.py` lines 48-121, restricted to the
fields the verified operations read: the key and the `good`/`warn`/`danger`
stops, in the source's (insertion) order. -/
def THEMES : List (String × Theme) :=
  [("default", ⟨(3/10, 17/20, 2/5), (1, 3/4, 1/5), (1, 7/20, 3/10)⟩),
   ("ocean",   ⟨(0, 3/4, 9/10), (3/10, 9/10, 7/10), (19/20, 9/20, 11/20)⟩),
   ("sunset",  ⟨(1, 11/20, 9/20), (1, 17/20, 7/20), (1, 3/10, 2/5)⟩),
   ("matrix",  ⟨(0, 1, 1/4), (1/2, 1, 0), (1, 1/4, 1/4)⟩),
   ("nord",    ⟨(53/100, 3/4, 41/50), (23/25, 4/5, 11/20), (3/4, 19/50, 21/50)⟩),
   ("purple",  ⟨(37/50, 29/50, 49/50), (1, 18/25, 21/50), (1, 33/100, 11/25)⟩)]

/-- `THEME_ORDER = list(THEMES.keys())`, line 122. -/
def THEME_ORDER : List String := THEMES.map Prod.fst

/-- The slice of `ConfigManager` state that `cycle_theme` touches: the
stored theme name (`self.theme`). -/
structure ConfigManager where
  theme : String
deriving DecidableEq

/-- `ConfigManager.cycle_theme` from `mystem_sonitor.py` lines 1024-1028:
returns the value returned to the caller together with the updated state. -/
def ConfigManager.cycle_theme (c : ConfigManager) : String × ConfigManager :=
  let idx := if c.theme ∈ THEME_ORDER then THEME_ORDER.indexOf c.theme else 0
  let newTheme := THEME_ORDER.get ⟨(idx + 1) % THEME_ORDER.length, Nat.mod_lt _ (by decide)⟩
  (newTheme, ⟨newTheme⟩)

/-! ## Helper lemmas -/

/-- Round-half-even is the identity on integers. -/
theorem roundHalfEven_intCast (n : ℤ) : roundHalfEven (n : ℚ) = n := by
  unfold roundHalfEven
  rw [Int.floor_intCast, sub_self]
  norm_num

/-- Python's `:.0f` at an integer prints that integer. -/
theorem fmtFixed0_intCast (n : ℤ) :
    fmtFixed0 (n : ℚ) = (if n < 0 then "-" ++ toString n.natAbs else toString n.natAbs) := by
  unfold fmtFixed0
  rw [roundHalfEven_intCast]
  by_cases h : n < 0
  · rw [if_pos h, if_pos]
    exact_mod_cast Int.cast_lt_zero.mpr h
  · rw [if_neg h, if_neg]
    intro hc
    exact h (by exact_mod_cast hc)

/-- Python's `:.1f` at an exact multiple of one tenth prints its integer part,
a point, and the tenths digit. -/
theorem fmtFixed1_tenths (n : ℤ) :
    fmtFixed1 ((n : ℚ) / 10) =
      (if n < 0 then "-" ++ toString (n.natAbs / 10) ++ "." ++ toString (n.natAbs % 10)
       else toString (n.natAbs / 10) ++ "." ++ toString (n.natAbs % 10)) := by
  unfold fmtFixed1
  have h10 : (10 : ℚ) * ((n : ℚ) / 10) = (n : ℚ) := by ring
  rw [h10, roundHalfEven_intCast]
  by_cases h : n < 0
  · rw [if_pos h, if_pos]
    have hn : (n : ℚ) < 0 := by exact_mod_cast h
    exact div_neg_of_neg_of_pos hn (by norm_num)
  · rw [if_neg h, if_neg]
    intro hc
    have hn : (n : ℚ) < 0 := by nlinarith [hc]
    exact h (by exact_mod_cast hn)

/-- A linear interpolation between two points of `[0, 1]` with factor in
`[0, 1]` stays in `[0, 1]`. -/
theorem lerp_mem_unit {a b t : ℚ} (ha0 : 0 ≤ a) (ha1 : a ≤ 1) (hb0 : 0 ≤ b)
    (hb1 : b ≤ 1) (ht0 : 0 ≤ t) (ht1 : t ≤ 1) :
    0 ≤ a + t * (b - a) ∧ a + t * (b - a) ≤ 1 :=
  ⟨by nlinarith, by nlinarith⟩

/-- `_fmt_long` at 1023 bytes per second. -/
theorem fmt_long_eval_1023 : IOWidget.fmt_long 1023 = "1023 B/s" := by
  unfold IOWidget.fmt_long
  rw [if_pos (by norm_num)]
  have h : (1023 : ℚ) = ((1023 : ℤ) : ℚ) := by norm_num
  rw [h, fmtFixed0_intCast]
  decide

/-- `_fmt_long` at 1024 bytes per second. -/
theorem fmt_long_eval_1024 : IOWidget.fmt_long 1024 = "1.0 KB/s" := by
  unfold IOWidget.fmt_long
  rw [if_neg (by norm_num), if_pos (by norm_num)]
  have h : (1024 : ℚ) / 1024 = ((10 : ℤ) : ℚ) / 10 := by norm_num
  rw [h, fmtFixed1_tenths]
  decide

/-- `_fmt_long` at 1536 bytes per second. -/
theorem fmt_long_eval_1536 : IOWidget.fmt_long 1536 = "1.5 KB/s" := by
  unfold IOWidget.fmt_long
  rw [if_neg (by norm_num), if_pos (by norm_num)]
  have h : (1536 : ℚ) / 1024 = ((15 : ℤ) : ℚ) / 10 := by norm_num
  rw [h, fmtFixed1_tenths]
  decide

/-- `_fmt_long` at exactly 1 MB/s. -/
theorem fmt_long_eval_mb : IOWidget.fmt_long (1024^2) = "1.0 MB/s" := by
  unfold IOWidget.fmt_long
  rw [if_neg (by norm_num), if_neg (by norm_num), if_pos (by norm_num)]
  have h : (1024 : ℚ)^2 / 1024^2 = ((10 : ℤ) : ℚ) / 10 := by norm_num
  rw [h, fmtFixed1_tenths]
  decide

/-- `_fmt_long` at 1.5 MB/s. -/
theorem fmt_long_eval_mb_half : IOWidget.fmt_long (3 * 1024^2 / 2) = "1.5 MB/s" := by
  unfold IOWidget.fmt_long
  rw [if_neg (by norm_num), if_neg (by norm_num), if_pos (by norm_num)]
  have h : (3 : ℚ) * 1024^2 / 2 / 1024^2 = ((15 : ℤ) : ℚ) / 10 := by norm_num
  rw [h, fmtFixed1_tenths]
  decide

/-- `_fmt_long` at exactly 1 GB/s. -/
theorem fmt_long_eval_gb : IOWidget.fmt_long (1024^3) = "1.0 GB/s" := by
  unfold IOWidget.fmt_long
  rw [if_neg (by norm_num), if_neg (by norm_num), if_neg (by norm_num)]
  have h : (1024 : ℚ)^3 / 1024^3 = ((10 : ℤ) : ℚ) / 10 := by norm_num
  rw [h, fmtFixed1_tenths]
  decide

/-- `_fmt_long` at −5 bytes per second. -/
theorem fmt_long_eval_neg5 : IOWidget.fmt_long (-5) = "-5 B/s" := by
  unfold IOWidget.fmt_long
  rw [if_pos (by norm_num)]
  have h : (-5 : ℚ) = ((-5 : ℤ) : ℚ) := by norm_num
  rw [h, fmtFixed0_intCast]
  decide

/-- `_fmt_long` at 0 bytes per second. -/
theorem fmt_long_eval_zero : IOWidget.fmt_long 0 = "0 B/s" := by
  unfold IOWidget.fmt_long
  rw [if_pos (by norm_num)]
  have h : (0 : ℚ) = ((0 : ℤ) : ℚ) := by norm_num
  rw [h, fmtFixed0_intCast]
  decide

/-! ## Claim theorems -/

/-- Claim C1: for every theme and every percent with `50 < percent ≤ 75`,
`get_health_color` returns, in each channel, `good + t * (warn - good)` with
`t = (percent - 50) / 25`; in particular, for `good = (0,0,0)` and
`warn = (1,1,1)`, the value at `62.5` is `(0.5, 0.5, 0.5)`. -/
theorem C1_mid_band_interpolation :
    (∀ (th : Theme) (p : ℚ), 50 < p → p ≤ 75 →
      get_health_color p th =
        (th.good.1 + ((p - 50) / 25) * (th.warn.1 - th.good.1),
         th.good.2.1 + ((p - 50) / 25) * (th.warn.2.1 - th.good.2.1),
         th.good.2.2 + ((p - 50) / 25) * (th.warn.2.2 - th.good.2.2))) ∧
    ∀ d : RGB, get_health_color (125/2) ⟨(0, 0, 0), (1, 1, 1), d⟩ = (1/2, 1/2, 1/2) := by
  constructor
  · intro th p h1 h2
    unfold get_health_color
    rw [if_neg (not_le.mpr h1), if_pos h2]
  · intro d
    norm_num [get_health_color]

/-- Witness for C1 at `percent = 60`. -/
theorem C1_mid_band_interpolation_witness :
    get_health_color 60 ⟨(0, 0, 0), (1, 1, 1), (1, 0, 0)⟩ =
      (0 + ((60 - 50) / 25) * (1 - 0), 0 + ((60 - 50) / 25) * (1 - 0),
       0 + ((60 - 50) / 25) * (1 - 0)) :=
  C1_mid_band_interpolation.1 ⟨(0, 0, 0), (1, 1, 1), (1, 0, 0)⟩ 60 (by norm_num) (by norm_num)

/-- Claim C2: the mapped color is continuous at both breakpoints: the value at
50 is `theme.good` and so is the limit from above at 50; the value at 75 is
`theme.warn`, the branch below 75 and the branch above 75 agreeing there. -/
theorem C2_breakpoint_continuity (th : Theme) :
    get_health_color 50 th = th.good ∧
    Filter.Tendsto (fun p : ℚ => get_health_color p th)
      (nhdsWithin 50 (Set.Ioi 50)) (nhds th.good) ∧
    get_health_color 75 th = th.warn ∧
    healthMidBranch 50 th = th.good ∧
    healthMidBranch 75 th = th.warn ∧
    healthHiBranch 75 th = th.warn := by
  refine ⟨?_, ?_, ?_, ?_, ?_, ?_⟩
  · unfold get_health_color
    rw [if_pos (by norm_num)]
  · have hc : Continuous fun p : ℚ => (p - 50) / 25 :=
      (continuous_id.sub continuous_const).div_const 25
    have hcont : Continuous (fun p : ℚ => healthMidBranch p th) := by
      unfold healthMidBranch
      exact (continuous_const.add (hc.mul continuous_const)).prod_mk
        ((continuous_const.add (hc.mul continuous_const)).prod_mk
          (continuous_const.add (hc.mul continuous_const)))
    have hval : healthMidBranch 50 th = th.good := by
      obtain ⟨⟨g1, g2, g3⟩, ⟨w1, w2, w3⟩, ⟨d1, d2, d3⟩⟩ := th
      unfold healthMidBranch
      norm_num
    have htend : Filter.Tendsto (fun p : ℚ => healthMidBranch p th)
        (nhdsWithin 50 (Set.Ioi 50)) (nhds th.good) := by
      have h1 := hcont.tendsto (50 : ℚ)
      rw [hval] at h1
      exact h1.mono_left nhdsWithin_le_nhds
    have hmem : Set.Ioo (50 : ℚ) 75 ∈ nhdsWithin 50 (Set.Ioi 50) :=
      Ioo_mem_nhdsWithin_Ioi ⟨le_refl _, by norm_num⟩
    have heq : (fun p : ℚ => healthMidBranch p th) =ᶠ[nhdsWithin 50 (Set.Ioi 50)]
        (fun p : ℚ => get_health_color p th) := by
      apply Filter.eventuallyEq_of_mem hmem
      intro p hp
      simp only [get_health_color, healthMidBranch]
      rw [if_neg (not_le.mpr hp.1), if_pos (le_of_lt hp.2)]
    exact htend.congr' heq
  · obtain ⟨⟨g1, g2, g3⟩, ⟨w1, w2, w3⟩, ⟨d1, d2, d3⟩⟩ := th
    unfold get_health_color
    rw [if_neg (by norm_num), if_pos (by norm_num)]
    norm_num
  · obtain ⟨⟨g1, g2, g3⟩, ⟨w1, w2, w3⟩, ⟨d1, d2, d3⟩⟩ := th
    unfold healthMidBranch
    norm_num
  · obtain ⟨⟨g1, g2, g3⟩, ⟨w1, w2, w3⟩, ⟨d1, d2, d3⟩⟩ := th
    unfold healthMidBranch
    norm_num
  · obtain ⟨⟨g1, g2, g3⟩, ⟨w1, w2, w3⟩, ⟨d1, d2, d3⟩⟩ := th
    unfold healthHiBranch
    norm_num

/-- Claim C3: for every theme and every percent `≤ 50` (including negative
values), `get_health_color` returns `theme.good` unchanged. -/
theorem C3_low_band_returns_good (th : Theme) (p : ℚ) (h : p ≤ 50) :
    get_health_color p th = th.good := by
  unfold get_health_color
  rw [if_pos h]

/-- Witness for C3 at `percent = -10`. -/
theorem C3_low_band_returns_good_witness :
    get_health_color (-10) ⟨(1, 0, 0), (0, 1, 0), (0, 0, 1)⟩ = (1, 0, 0) :=
  C3_low_band_returns_good ⟨(1, 0, 0), (0, 1, 0), (0, 0, 1)⟩ (-10) (by norm_num)

/-- Claim C4: for every theme and every percent `≥ 100` (including values
strictly greater than 100), `get_health_color` returns `theme.danger`. -/
theorem C4_high_band_returns_danger (th : Theme) (p : ℚ) (h : 100 ≤ p) :
    get_health_color p th = th.danger := by
  obtain ⟨⟨g1, g2, g3⟩, ⟨w1, w2, w3⟩, ⟨d1, d2, d3⟩⟩ := th
  unfold get_health_color
  rw [if_neg (by push_neg; linarith), if_neg (by push_neg; linarith)]
  have ht : min (1 : ℚ) ((p - 75) / 25) = 1 := by
    apply min_eq_left
    rw [le_div_iff₀ (by norm_num)]
    linarith
  rw [ht]
  simp only [Prod.mk.injEq]
  exact ⟨by ring, by ring, by ring⟩

/-- Witness for C4 at `percent = 150`. -/
theorem C4_high_band_returns_danger_witness :
    get_health_color 150 ⟨(1, 0, 0), (0, 1, 0), (0, 0, 1)⟩ = (0, 0, 1) :=
  C4_high_band_returns_danger ⟨(1, 0, 0), (0, 1, 0), (0, 0, 1)⟩ 150 (by norm_num)

/-- Claim C5: `get_health_color` is invariant under clamping its input to
`[0, 100]`: the value at any percent equals the value at
`min 100 (max 0 percent)`; out-of-range inputs are never rejected. -/
theorem C5_clamp_equivalence (th : Theme) (p : ℚ) :
    get_health_color p th = get_health_color (min 100 (max 0 p)) th := by
  rcases le_or_lt p 50 with h | h
  · have hclamp : min 100 (max 0 p) ≤ 50 :=
      le_trans (min_le_right _ _) (max_le (by norm_num) h)
    unfold get_health_color
    rw [if_pos h, if_pos hclamp]
  · rcases le_or_lt p 100 with h2 | h2
    · have hmax : max 0 p = p := max_eq_right (by linarith)
      have hmin : min 100 p = p := min_eq_right h2
      rw [hmax, hmin]
    · have hmax : max 0 p = p := max_eq_right (by linarith)
      have hmin : min 100 p = 100 := min_eq_left (by linarith)
      rw [hmax, hmin]
      obtain ⟨⟨g1, g2, g3⟩, ⟨w1, w2, w3⟩, ⟨d1, d2, d3⟩⟩ := th
      unfold get_health_color
      rw [if_neg (by push_neg; linarith), if_neg (by push_neg; linarith),
        if_neg (by norm_num), if_neg (by norm_num)]
      have ht : min (1 : ℚ) ((p - 75) / 25) = 1 := by
        apply min_eq_left
        rw [le_div_iff₀ (by norm_num)]
        linarith
      rw [ht]
      norm_num

/-- Claim C6: `get_health_color` is total, and whenever each component of the
three theme stops lies in `[0, 1]`, each channel of its output lies in
`[0, 1]`. -/
theorem C6_output_in_unit_range (th : Theme) (p : ℚ) (hg : inUnitRGB th.good)
    (hw : inUnitRGB th.warn) (hd : inUnitRGB th.danger) :
    inUnitRGB (get_health_color p th) := by
  obtain ⟨⟨g1, g2, g3⟩, ⟨w1, w2, w3⟩, ⟨d1, d2, d3⟩⟩ := th
  obtain ⟨hg1, hg2, hg3, hg4, hg5, hg6⟩ := hg
  obtain ⟨hw1, hw2, hw3, hw4, hw5, hw6⟩ := hw
  obtain ⟨hd1, hd2, hd3, hd4, hd5, hd6⟩ := hd
  unfold get_health_color
  split_ifs with h1 h2
  · exact ⟨hg1, hg2, hg3, hg4, hg5, hg6⟩
  · push_neg at h1
    have ht0 : (0 : ℚ) ≤ (p - 50) / 25 := div_nonneg (by linarith) (by norm_num)
    have ht1 : (p - 50) / 25 ≤ 1 := by
      rw [div_le_one (by norm_num)]
      linarith
    obtain ⟨ha, hb⟩ := lerp_mem_unit hg1 hg2 hw1 hw2 ht0 ht1
    obtain ⟨hc, hd'⟩ := lerp_mem_unit hg3 hg4 hw3 hw4 ht0 ht1
    obtain ⟨he, hf⟩ := lerp_mem_unit hg5 hg6 hw5 hw6 ht0 ht1
    exact ⟨ha, hb, hc, hd', he, hf⟩
  · push_neg at h1 h2
    have ht0 : (0 : ℚ) ≤ min 1 ((p - 75) / 25) :=
      le_min (by norm_num) (div_nonneg (by linarith) (by norm_num))
    have ht1 : min (1 : ℚ) ((p - 75) / 25) ≤ 1 := min_le_left _ _
    obtain ⟨ha, hb⟩ := lerp_mem_unit hw1 hw2 hd1 hd2 ht0 ht1
    obtain ⟨hc, hd'⟩ := lerp_mem_unit hw3 hw4 hd3 hd4 ht0 ht1
    obtain ⟨he, hf⟩ := lerp_mem_unit hw5 hw6 hd5 hd6 ht0 ht1
    exact ⟨ha, hb, hc, hd', he, hf⟩

/-- Witness for C6 at the default theme and `percent = 90`. -/
theorem C6_output_in_unit_range_witness :
    inUnitRGB (get_health_color 90
      ⟨(3/10, 17/20, 2/5), (1, 3/4, 1/5), (1, 7/20, 3/10)⟩) :=
  C6_output_in_unit_range ⟨(3/10, 17/20, 2/5), (1, 3/4, 1/5), (1, 7/20, 3/10)⟩ 90
    (by norm_num [inUnitRGB]) (by norm_num [inUnitRGB]) (by norm_num [inUnitRGB])

/-- Counterexample to claim C7: the claim says inputs below 1 MB/s format
with 0 decimal places, but at 1536 B/s (the KB/s range) `_fmt_long` emits
`"1.5 KB/s"` — one decimal place — not the zero-decimal `"2 KB/s"`. -/
theorem C7_counterexample_kb_one_decimal :
    IOWidget.fmt_long 1536 = "1.5 KB/s" ∧
    fmtFixed0 ((1536 : ℚ) / 1024) ++ " KB/s" = "2 KB/s" ∧
    IOWidget.fmt_long 1536 ≠ fmtFixed0 ((1536 : ℚ) / 1024) ++ " KB/s" := by
  have h1 : IOWidget.fmt_long 1536 = "1.5 KB/s" := fmt_long_eval_1536
  have h2 : fmtFixed0 ((1536 : ℚ) / 1024) = "2" := by
    have hq : (1536 : ℚ) / 1024 = 3/2 := by norm_num
    have hfloor : ⌊(3/2 : ℚ)⌋ = 1 := by norm_num
    unfold fmtFixed0 roundHalfEven
    rw [hq, hfloor]
    norm_num
    decide
  refine ⟨h1, by rw [h2]; decide, ?_⟩
  rw [h1, h2]
  decide

/-- Claim C7 as amended: `_fmt_long` formats with 0 decimal places only in
the B/s range (below 1 KB/s) and with 1 decimal place in the KB/s, MB/s and
GB/s ranges, the unit chosen by magnitude thresholds at powers of 1024
(`fmtFixed0` is Python's zero-decimal `:.0f`, `fmtFixed1` its one-decimal
`:.1f`). -/
theorem C7_amended_decimal_places :
    (∀ v : ℚ,
      (v < 1024 → IOWidget.fmt_long v = fmtFixed0 v ++ " B/s") ∧
      (1024 ≤ v → v < 1024^2 → IOWidget.fmt_long v = fmtFixed1 (v / 1024) ++ " KB/s") ∧
      (1024^2 ≤ v → v < 1024^3 → IOWidget.fmt_long v = fmtFixed1 (v / 1024^2) ++ " MB/s") ∧
      (1024^3 ≤ v → IOWidget.fmt_long v = fmtFixed1 (v / 1024^3) ++ " GB/s")) ∧
    IOWidget.fmt_long (3 * 1024^2 / 2) = "1.5 MB/s" := by
  constructor
  · intro v
    refine ⟨?_, ?_, ?_, ?_⟩
    · intro h
      unfold IOWidget.fmt_long
      rw [if_pos h]
    · intro h1 h2
      unfold IOWidget.fmt_long
      rw [if_neg (not_lt.mpr h1), if_pos h2]
    · intro h1 h2
      unfold IOWidget.fmt_long
      rw [if_neg (not_lt.mpr (le_trans (by norm_num) h1)),
        if_neg (not_lt.mpr h1), if_pos h2]
    · intro h1
      unfold IOWidget.fmt_long
      rw [if_neg (not_lt.mpr (le_trans (by norm_num) h1)),
        if_neg (not_lt.mpr (le_trans (by norm_num) h1)), if_neg (not_lt.mpr h1)]
  · exact fmt_long_eval_mb_half

/-- Witness for the amended C7 in the B/s range, at 512 B/s. -/
theorem C7_amended_decimal_places_witness :
    IOWidget.fmt_long 512 = fmtFixed0 512 ++ " B/s" :=
  (C7_amended_decimal_places.1 512).1 (by norm_num)

/-- Claim C8: at exactly a unit threshold `_fmt_long` promotes to the next
unit up (strictly-below stays, equal promotes): every value below 1024 stays
in B/s, every value in `[1024, 1024²)` formats in KB/s, and
`1023 ↦ "1023 B/s"`, `1024 ↦ "1.0 KB/s"`, `1536 ↦ "1.5 KB/s"`,
`1024² ↦ "1.0 MB/s"`, `1024³ ↦ "1.0 GB/s"`. -/
theorem C8_threshold_promotion :
    (∀ v : ℚ, v < 1024 → IOWidget.fmt_long v = fmtFixed0 v ++ " B/s") ∧
    (∀ v : ℚ, 1024 ≤ v → v < 1024^2 → IOWidget.fmt_long v = fmtFixed1 (v / 1024) ++ " KB/s") ∧
    IOWidget.fmt_long 1023 = "1023 B/s" ∧
    IOWidget.fmt_long 1024 = "1.0 KB/s" ∧
    IOWidget.fmt_long 1536 = "1.5 KB/s" ∧
    IOWidget.fmt_long (1024^2) = "1.0 MB/s" ∧
    IOWidget.fmt_long (1024^3) = "1.0 GB/s" := by
  refine ⟨?_, ?_, fmt_long_eval_1023, fmt_long_eval_1024, fmt_long_eval_1536,
    fmt_long_eval_mb, fmt_long_eval_gb⟩
  · intro v h
    unfold IOWidget.fmt_long
    rw [if_pos h]
  · intro v h1 h2
    unfold IOWidget.fmt_long
    rw [if_neg (not_lt.mpr h1), if_pos h2]

/-- Witness for C8 at 2048 B/s, just above the first threshold. -/
theorem C8_threshold_promotion_witness :
    IOWidget.fmt_long 2048 = fmtFixed1 ((2048 : ℚ) / 1024) ++ " KB/s" :=
  C8_threshold_promotion.2.1 2048 (by norm_num) (by norm_num)

/-- Counterexample to claim C9: `_fmt_long` does not treat a negative input
as 0: at −5 it returns `"-5 B/s"`, while at 0 it returns `"0 B/s"`. -/
theorem C9_counterexample_negative_input :
    IOWidget.fmt_long (-5) = "-5 B/s" ∧
    IOWidget.fmt_long 0 = "0 B/s" ∧
    IOWidget.fmt_long (-5) ≠ IOWidget.fmt_long 0 := by
  refine ⟨fmt_long_eval_neg5, fmt_long_eval_zero, ?_⟩
  rw [fmt_long_eval_neg5, fmt_long_eval_zero]
  decide

/-- Claim C9 as amended: a negative input is not treated as 0: it falls into
the B/s branch and is formatted (with Python's `:.0f`) at its own negative
value; `_fmt_long 0 = "0 B/s"` does hold. -/
theorem C9_amended_negative_passthrough :
    (∀ v : ℚ, v < 0 → IOWidget.fmt_long v = fmtFixed0 v ++ " B/s") ∧
    IOWidget.fmt_long 0 = "0 B/s" ∧
    IOWidget.fmt_long (-5) = "-5 B/s" := by
  refine ⟨?_, fmt_long_eval_zero, fmt_long_eval_neg5⟩
  intro v h
  unfold IOWidget.fmt_long
  rw [if_pos (by linarith)]

/-- Witness for the amended C9 at −2048 B/s. -/
theorem C9_amended_negative_passthrough_witness :
    IOWidget.fmt_long (-2048) = fmtFixed0 (-2048) ++ " B/s" :=
  C9_amended_negative_passthrough.1 (-2048) (by norm_num)

/-- Claim C10: after any call to `ConfigManager.cycle_theme` the stored theme
name is a member of `THEME_ORDER`, even when the previous theme name was not
a known theme, and the returned value equals the newly stored name; for
instance, from the unknown name `"nonsense"` it stores and returns
`"ocean"`. -/
theorem C10_cycle_theme_membership :
    (∀ c : ConfigManager,
      c.cycle_theme.1 ∈ THEME_ORDER ∧ c.cycle_theme.2.theme = c.cycle_theme.1) ∧
    ConfigManager.cycle_theme ⟨"nonsense"⟩ = ("ocean", ⟨"ocean"⟩) := by
  constructor
  · intro c
    constructor
    · simp only [ConfigManager.cycle_theme]
      exact THEME_ORDER.get_mem _ _
    · rfl
  · decide
